import Mathlib

/-!
# Verification of `MasiSocketManager` (rpi-excavator)

Shallow embedding of `http_oled_sajib/main/control_modules/socket_manager.py`:
the frame codec (pack values + XOR checksum trailer), the latest-value cache
(`get_latest_received` / the receiver loop's cache write), the receive length
filter (`__receive_data`), the handshake state machine (`handshake`), the
record buffer and saver (`add_data_to_buffer` / `__save_buffer`), connection
setup (`setup_socket`) and the TCP→UDP switch (`tcp_to_udp`).

Machine-level conventions of the embedding:
* bytes are `Nat` values (< 256 in any well-formed frame);
* `struct.pack`/`struct.unpack` with format `'<b'` (signed 1-byte int) is
  modelled exactly (two's-complement byte);
* format `'<d'` (8-byte IEEE-754 double) is modelled at the bit-pattern
  level: a value is its 64-bit pattern, packed little-endian.  CPython's
  pack/unpack of a double is bit-exact, so this captures the codec "up to
  the encoding's numeric precision";
* socket I/O is abstracted into explicit inputs (bytes received, datagram
  source address) and outputs (bytes sent), everything else is literal.
-/

namespace MasiSocket

/-! ## Little-endian byte strings (the `struct` pack/unpack primitive) -/

/-- Split a natural number into `k` little-endian base-256 bytes
(`struct.pack` for an unsigned `k`-byte field). -/
def leBytes : Nat → Nat → List Nat
  | 0, _ => []
  | k + 1, w => (w % 256) :: leBytes k (w / 256)

/-- Reassemble little-endian base-256 bytes into a natural number
(`struct.unpack` for an unsigned field). -/
def leVal : List Nat → Nat
  | [] => 0
  | b :: bs => b + 256 * leVal bs

theorem length_leBytes (k w : Nat) : (leBytes k w).length = k := by
  induction k generalizing w with
  | zero => rfl
  | succ k ih => simp [leBytes, ih]

theorem leVal_leBytes (k w : Nat) : leVal (leBytes k w) = w % 256 ^ k := by
  induction k generalizing w with
  | zero => simp [leBytes, leVal, Nat.mod_one]
  | succ k ih =>
    rw [pow_succ, mul_comm (256 ^ k) 256, Nat.mod_mul]
    simp [leBytes, leVal, ih]

/-! ## Numeric wire formats

`MasiSocketManager.__init__`: `int_format='b'` (1-byte signed int),
`double_format='d'` (8-byte double), `checksum_format='B'` (1 byte),
`endian_specifier='<'`. -/

/-- The two payload element formats the manager can negotiate:
`'b'` (`int_format`) and `'d'` (`double_format`). -/
inductive Fmt where
  | intF    -- 'b': signed 1-byte integer
  | doubleF -- 'd': 8-byte IEEE-754 double, modelled as its 64-bit pattern
deriving DecidableEq, Repr

/-- `struct.calcsize` of one element: 1 byte for `'b'`, 8 for `'d'`. -/
def Fmt.size : Fmt → Nat
  | .intF => 1
  | .doubleF => 8

theorem Fmt.size_pos (f : Fmt) : 0 < f.size := by cases f <;> simp [Fmt.size]

/-- `struct.calcsize('<B')` — one checksum byte. -/
def checksum_format_size : Nat := 1

/-- Values `struct.pack` accepts for the format: the `'b'` range is
[-128, 127] (`struct.error` otherwise); a double's bit pattern is any
64-bit word. -/
def fits : Fmt → Int → Prop
  | .intF, v => -128 ≤ v ∧ v ≤ 127
  | .doubleF, v => 0 ≤ v ∧ v < 18446744073709551616

instance fits.decide (f : Fmt) (v : Int) : Decidable (fits f v) := by
  cases f <;> simp only [fits] <;> infer_instance

/-- `struct.pack(endian + fmt, v)` for one element. -/
def packElem : Fmt → Int → List Nat
  | .intF, v => [(v % 256).toNat]
  | .doubleF, v => leBytes 8 v.toNat

/-- `struct.unpack(endian + fmt, bytes)` for one element. -/
def unpackElem : Fmt → List Nat → Int
  | .intF, bs => let b := leVal bs; if b < 128 then (b : Int) else (b : Int) - 256
  | .doubleF, bs => (leVal bs : Int)

theorem length_packElem (f : Fmt) (v : Int) : (packElem f v).length = f.size := by
  cases f <;> simp [packElem, Fmt.size, length_leBytes]

theorem unpackElem_packElem (f : Fmt) (v : Int) (h : fits f v) :
    unpackElem f (packElem f v) = v := by
  cases f with
  | intF =>
    simp only [fits] at h
    simp only [packElem, unpackElem, leVal]
    split <;> omega
  | doubleF =>
    simp only [fits] at h
    simp only [packElem, unpackElem, leVal_leBytes]
    have hlt : v.toNat < 256 ^ 8 := by omega
    rw [Nat.mod_eq_of_lt hlt]
    omega

/-! ## Checksum (`_compute_checksum`, `_add_checksum`) -/

/-- `_compute_checksum`: running XOR of every payload byte, starting at 0. -/
def compute_checksum (packed_data : List Nat) : Nat :=
  packed_data.foldl (fun checksum byte => checksum ^^^ byte) 0

/-- `_add_checksum`: append the checksum as the final byte
(`struct.pack('<B', checksum)` is the identity on a byte value). -/
def add_checksum (packed_data : List Nat) : List Nat :=
  packed_data ++ [compute_checksum packed_data]

theorem foldl_xor_start (a : Nat) (l : List Nat) :
    l.foldl (fun c b => c ^^^ b) a = a ^^^ l.foldl (fun c b => c ^^^ b) 0 := by
  induction l generalizing a with
  | nil => simp
  | cons x xs ih =>
    simp only [List.foldl_cons]
    rw [ih (a ^^^ x), ih (0 ^^^ x)]
    simp [Nat.xor_assoc]

theorem compute_checksum_cons (x : Nat) (l : List Nat) :
    compute_checksum (x :: l) = x ^^^ compute_checksum l := by
  simp only [compute_checksum, List.foldl_cons]
  rw [foldl_xor_start]
  simp

/-- XOR-ing one byte of the payload with `m` XORs the checksum with `m`. -/
theorem compute_checksum_set (l : List Nat) (j m : Nat) (hj : j < l.length) :
    compute_checksum (l.set j (l.getD j 0 ^^^ m)) = compute_checksum l ^^^ m := by
  induction l generalizing j with
  | nil => simp at hj
  | cons x xs ih =>
    cases j with
    | zero =>
      simp only [List.set_cons_zero, List.getD_cons_zero, compute_checksum_cons]
      rw [Nat.xor_assoc, Nat.xor_comm m, ← Nat.xor_assoc]
    | succ j =>
      simp only [List.set_cons_succ, List.getD_cons_succ, compute_checksum_cons]
      rw [ih j (by simpa using hj), ← Nat.xor_assoc]

/-- The checksum of a list of bytes is itself a byte. -/
theorem compute_checksum_lt (l : List Nat) (h : ∀ x ∈ l, x < 256) :
    compute_checksum l < 256 := by
  induction l with
  | nil => simp [compute_checksum]
  | cons x xs ih =>
    rw [compute_checksum_cons]
    have hx : x < 256 := h x (List.mem_cons_self x xs)
    have hxs : compute_checksum xs < 256 := ih fun y hy => h y (List.mem_cons_of_mem x hy)
    exact Nat.bitwise_lt (n := 8) hx hxs

/-! ## Encoding (`send_data`) -/

/-- The packing step of `send_data`: pack every value with the local output
format (`struct.pack` of the whole array raises, i.e. `none`, if any value
does not fit), then `_add_checksum`.  The returned bytes are what goes on
the wire (`final_data`). -/
def send_data (local_output_datatype : Fmt) (data : List Int) : Option (List Nat) :=
  if data.all fun v => decide (fits local_output_datatype v) then
    some (add_checksum ((data.map (packElem local_output_datatype)).flatten))
  else
    none

/-! ## Decoding and the latest-value cache (`get_latest_received`) -/

/-- The element-unpacking loop of `get_latest_received`:
`[struct.unpack(fmt, full_data[i:i+size])[0] for i in range(0, expected_length, size)]`,
with `n` the number of loop iterations (`expected_length / size` — the guard
has already checked divisibility). -/
def decodeChunksN (f : Fmt) : Nat → List Nat → List Int
  | 0, _ => []
  | n + 1, bs => unpackElem f (bs.take f.size) :: decodeChunksN f n (bs.drop f.size)

/-- `get_latest_received`, as a function of the negotiated inbound format and
the cache slot (`self.latest_recvd`).  Returns the decoded array (or `none`)
and the new contents of the slot.  An undersized buffer makes the checksum
`struct.unpack` raise; the `except` clause turns any such error into `None`
without touching the slot. -/
def get_latest_received (connected_output_datatype : Fmt)
    (latest_recvd : Option (List Nat)) : Option (List Int) × Option (List Nat) :=
  match latest_recvd with
  | none => (none, none)
  | some full_data =>
    if full_data.length < checksum_format_size then
      (none, some full_data)
    else
      let received_checksum := leVal (full_data.drop (full_data.length - checksum_format_size))
      let computed_checksum := compute_checksum (full_data.take (full_data.length - checksum_format_size))
      if received_checksum ≠ computed_checksum then
        (none, some full_data)
      else
        let expected_length := full_data.length - checksum_format_size
        if expected_length % connected_output_datatype.size ≠ 0 then
          (none, some full_data)
        else
          (some (decodeChunksN connected_output_datatype
                  (expected_length / connected_output_datatype.size)
                  (full_data.take expected_length)),
           none)

/-! ## Receive length filter (`__receive_data`) and the receiver loop body -/

/-- `__receive_data` after the socket call: `full_data` is what `recv` /
`recvfrom` returned; an empty or wrong-sized buffer is dropped. -/
def receive_data (recv_bytes : Nat) (full_data : List Nat) : Option (List Nat) :=
  if full_data.isEmpty || full_data.length != recv_bytes then none else some full_data

/-- One iteration of `__continuous_data_receiver`: receive, and `if data:`
overwrite `self.latest_recvd` unconditionally. -/
def continuous_data_receiver_step (recv_bytes : Nat) (incoming : List Nat)
    (latest_recvd : Option (List Nat)) : Option (List Nat) :=
  match receive_data recv_bytes incoming with
  | some d => if d.isEmpty then latest_recvd else some d
  | none => latest_recvd

/-! ## Handshake (`handshake`)

The peer's side of the wire is an explicit input: the first 12-byte message
(three little-endian `'i'` integers), the optional encoding-selector integer
and the optional extra-argument integers that `handshake` would `recv` when
the peer is not Mevea. -/

/-- The module-level `id_numbers` table; `dict.get(..., "Undefined")`. -/
def id_numbers (n : Int) : String :=
  if n = 0 then "Excavator"
  else if n = 1 then "Mevea"
  else if n = 2 then "Motion Platform"
  else if n = 3 then "Digicenter"
  else "Undefined"

/-- `datatype_encoding.get(local_datatype, 1)`: `'int' → 0`, `'double' → 1`,
anything else defaults to 1. -/
def datatype_encoding_get (local_datatype : String) : Int :=
  if local_datatype = "int" then 0
  else if local_datatype = "double" then 1
  else 1

/-- `_prepare_extra_args`: the first `num_extra_args` keyword values,
zero-padded to length `num_extra_args`. -/
def prepare_extra_args (kwargs : List Int) (num_extra_args : Nat) : List Int :=
  let t := kwargs.take num_extra_args
  t ++ List.replicate (num_extra_args - t.length) 0

/-- `__receive_extra_args`: read `num_args` handshake-format integers off the
stream. -/
def receive_extra_args (stream : List Int) (num_args : Nat) : List Int :=
  stream.take num_args

/-- What the peer would send during a handshake: the three integers of its
initial (or response) message, and — consumed only on the non-Mevea path —
its encoding selector and its extra arguments. -/
structure HSPeer where
  msg1 : Int
  msg2 : Int
  msg3 : Int
  datatype_code : Int
  extra_args : List Int
deriving DecidableEq, Repr

/-- The fields `handshake` assigns on success, plus the integers it sent on
the wire (`response_values`) and the returned `recvd_extra_args`. -/
structure HSOk where
  recvd_id_number : Int
  recvd_num_inputs : Int
  recvd_num_outputs : Int
  local_output_datatype : Fmt
  connected_output_datatype : Fmt
  local_datatype_size : Nat
  connected_datatype_size : Nat
  send_bytes : Int
  recv_bytes : Int
  response_values : List Int
  recvd_extra_args : Option (List Int)
deriving DecidableEq, Repr

/-- Result of a `handshake` call: `False` (count mismatch), `None` (invalid
socket type), or the success tuple together with the negotiated state. -/
inductive HSResult where
  | failFalse
  | failNone
  | ok (s : HSOk)
deriving DecidableEq, Repr

/-- `True` exactly on the success branch (the returned pair is truthy). -/
def HSResult.isOk : HSResult → Bool
  | .ok _ => true
  | _ => false

/-- Compute the epilogue of `handshake`: datatype sizes and the
per-direction frame byte counts (`send_bytes`, `recv_bytes`). -/
def hs_finish (recvd_id recvd_in recvd_out : Int) (local_num_outputs : Int)
    (lod cod : Fmt) (sent : List Int) (rea : Option (List Int)) : HSResult :=
  .ok { recvd_id_number := recvd_id
        recvd_num_inputs := recvd_in
        recvd_num_outputs := recvd_out
        local_output_datatype := lod
        connected_output_datatype := cod
        local_datatype_size := lod.size
        connected_datatype_size := cod.size
        send_bytes := (lod.size : Int) * local_num_outputs + (checksum_format_size : Int)
        recv_bytes := (cod.size : Int) * recvd_out + (checksum_format_size : Int)
        response_values := sent
        recvd_extra_args := rea }

/-- `MasiSocketManager.handshake`, as a function of the stored socket role,
the locally configured identity and counts, the caller's arguments
(`local_datatype`, `num_extra_args`, `**kwargs`) and the peer's wire data. -/
def handshake (socket_type : Option String)
    (local_id_number local_num_inputs local_num_outputs : Int)
    (local_datatype : String) (num_extra_args : Nat) (kwargs : List Int)
    (peer : HSPeer) : HSResult :=
  let local_datatype_code := datatype_encoding_get local_datatype
  let local_output_datatype : Fmt := if local_datatype_code = 0 then .intF else .doubleF
  if socket_type = some "server" then
    -- receive, then send: peer message is [id, num_outputs, num_inputs]
    let recvd_id_number := peer.msg1
    let recvd_num_outputs := peer.msg2
    let recvd_num_inputs := peer.msg3
    let connected_device_name := id_numbers recvd_id_number
    if ¬(recvd_num_inputs = local_num_outputs ∧ recvd_num_outputs = local_num_inputs) then
      .failFalse
    else if connected_device_name = "Mevea" then
      hs_finish recvd_id_number recvd_num_inputs recvd_num_outputs local_num_outputs
        .doubleF .doubleF
        [local_id_number, local_num_inputs, local_num_outputs] none
    else
      let connected_output_datatype : Fmt := if peer.datatype_code = 0 then .intF else .doubleF
      let recvd_extra_args := receive_extra_args peer.extra_args num_extra_args
      let extra_args_to_send := prepare_extra_args kwargs num_extra_args
      hs_finish recvd_id_number recvd_num_inputs recvd_num_outputs local_num_outputs
        local_output_datatype connected_output_datatype
        ([local_id_number, local_num_inputs, local_num_outputs, local_datatype_code]
          ++ extra_args_to_send)
        (some recvd_extra_args)
  else if socket_type = some "client" then
    -- send, then receive: peer response is [id, num_inputs, num_outputs]
    let extra_args_to_send := prepare_extra_args kwargs num_extra_args
    let sent := [local_id_number, local_num_outputs, local_num_inputs, local_datatype_code]
      ++ extra_args_to_send
    let recvd_id_number := peer.msg1
    let recvd_num_inputs := peer.msg2
    let recvd_num_outputs := peer.msg3
    let connected_device_name := id_numbers recvd_id_number
    if connected_device_name = "Mevea" then
      hs_finish recvd_id_number recvd_num_inputs recvd_num_outputs local_num_outputs
        .doubleF .doubleF sent none
    else
      let connected_output_datatype : Fmt := if peer.datatype_code = 0 then .intF else .doubleF
      let recvd_extra_args := receive_extra_args peer.extra_args num_extra_args
      hs_finish recvd_id_number recvd_num_inputs recvd_num_outputs local_num_outputs
        local_output_datatype connected_output_datatype sent (some recvd_extra_args)
  else
    .failNone

/-! ## Record buffer and saver (`add_data_to_buffer`, `__save_buffer`)

A buffer entry is `(microsecond timestamp, sensor values)`.  `__save_buffer`
packs the timestamp with `unix_format='d'` and every value with
`pack_datatype='d'`; following the doubles-as-bit-patterns convention, an
entry stores the 64-bit patterns of the double the timestamp converts to and
of each (already `float`) sensor value, so the `int(...)`/`float(...)`
conversions and `struct.pack` always succeed and the `except` arms are dead. -/

/-- `self.buffer_size` from `__init__`. -/
def buffer_size : Nat := 100

/-- `add_data_to_buffer`: append the timestamped entry; report whether the
threshold was reached (the condition variable is then notified). -/
def add_data_to_buffer (data_buffer : List (Nat × List Nat))
    (timestamp : Nat) (unpacked_data : List Nat) : List (Nat × List Nat) × Bool :=
  let data_buffer := data_buffer ++ [(timestamp, unpacked_data)]
  (data_buffer, decide (data_buffer.length ≥ buffer_size))

/-- One packed record of `__save_buffer`:
`struct.pack('<' + 'd' + 'd'*len(sensor_values), timestamp, *sensor_values)`. -/
def pack_record (data : Nat × List Nat) : List Nat :=
  leBytes 8 data.1 ++ (data.2.map (leBytes 8)).flatten

/-- The drain loop of `__save_buffer`: `popleft` until empty, packing each
entry in FIFO order into `packed_data_list`. -/
def drain_pack : List (Nat × List Nat) → List (List Nat)
  | [] => []
  | data :: rest => pack_record data :: drain_pack rest

/-- `__save_buffer`: drain the whole deque, then append the packed records
to the log file in one `writelines` call.  Returns the emptied buffer and
the new log contents. -/
def save_buffer (data_buffer : List (Nat × List Nat)) (log : List Nat) :
    List (Nat × List Nat) × List Nat :=
  ([], log ++ (drain_pack data_buffer).flatten)

/-! ## Connection setup and the TCP→UDP switch -/

/-- An open socket: stream (`SOCK_STREAM`) or datagram, and the address it
is bound to, when any. -/
structure SockInfo where
  is_stream : Bool
  bound : Option (String × Nat)
deriving DecidableEq, Repr

/-- The connection-related attributes of `MasiSocketManager`.  A closed
socket is dropped to `none`. -/
structure ConnState where
  socket_type : Option String := none
  network_protocol : Option String := none
  local_addr : Option (String × Nat) := none
  connected_addr : Option (String × Nat) := none
  local_socket : Option SockInfo := none
  connected_socket : Option SockInfo := none
  send_bytes : Option Int := none
  recv_bytes : Option Int := none
  local_id_number : Option Int := none
  local_num_inputs : Option Int := none
  local_num_outputs : Option Int := none
deriving DecidableEq, Repr

/-- The state `__init__` leaves behind (every connection field `None`). -/
def initState : ConnState := {}

/-- `__setup_socket_client`: if no socket exists, connect a TCP stream
socket to `(addr, port)` and record client role; otherwise only print
"socket already made!" and change nothing. -/
def setup_socket_client (st : ConnState) (addr : String) (port : Nat) : ConnState :=
  if st.local_socket = none then
    { st with
      local_socket := some { is_stream := true, bound := none }
      socket_type := some "client"
      connected_addr := some (addr, port)
      connected_socket := some { is_stream := true, bound := none }
      network_protocol := some "tcp" }
  else
    st

/-- `__setup_socket_server`: if no socket exists, bind and listen on
`(addr, port)` and accept one peer (`accepted_addr` is what `accept`
returns); otherwise only print "socket already made!" and change nothing. -/
def setup_socket_server (st : ConnState) (addr : String) (port : Nat)
    (accepted_addr : String × Nat) : ConnState :=
  if st.local_socket = none then
    { st with
      local_socket := some { is_stream := true, bound := some (addr, port) }
      connected_socket := some { is_stream := true, bound := none }
      connected_addr := some accepted_addr
      socket_type := some "server"
      local_addr := some (addr, port)
      network_protocol := some "tcp" }
  else
    st

/-- `setup_socket`: store identity and counts, then dispatch on
`socket_type`; returns `False` only for an invalid role string. -/
def setup_socket (st : ConnState) (addr : String) (port : Nat)
    (identification_number inputs outputs : Int) (socket_type : String)
    (accepted_addr : String × Nat) : ConnState × Bool :=
  let st := { st with
    local_id_number := some identification_number
    local_num_inputs := some inputs
    local_num_outputs := some outputs }
  if socket_type = "client" then
    (setup_socket_client st addr port, true)
  else if socket_type = "server" then
    (setup_socket_server st addr port accepted_addr, true)
  else
    (st, false)

/-- `tcp_to_udp`: remember the TCP address (peer address for a client, local
address for a server), close the existing sockets, open a datagram socket,
bind it to the old local address (server) or keep the old peer address
(client), and flip `network_protocol` to `'udp'`. -/
def tcp_to_udp (st : ConnState) : ConnState × Bool :=
  let tcp_addr := if st.socket_type = some "client" then st.connected_addr else st.local_addr
  let st := { st with connected_socket := none }
  let st := { st with local_socket := none }
  let st := { st with
    local_socket := some { is_stream := false
                           bound := if st.socket_type = some "server" then tcp_addr else none }
    connected_addr := if st.socket_type = some "client" then tcp_addr else st.connected_addr
    network_protocol := some "udp" }
  (st, true)

/-- `__receive_data`, UDP branch, with the connection state threaded
through: `recvfrom` yields `(full_data, addr)`; a server records the
datagram's source as the current peer address before the length check. -/
def receive_data_udp (st : ConnState) (recv_bytes : Nat) (full_data : List Nat)
    (addr : String × Nat) : ConnState × Option (List Nat) :=
  let st := if st.socket_type = some "server" then { st with connected_addr := some addr } else st
  (st, receive_data recv_bytes full_data)

/-! ## Codec lemmas -/

theorem length_flatten_pack (f : Fmt) (vals : List Int) :
    ((vals.map (packElem f)).flatten).length = f.size * vals.length := by
  induction vals with
  | nil => simp
  | cons v vs ih =>
    simp only [List.map_cons, List.flatten_cons, List.length_append, ih,
      length_packElem, List.length_cons]
    ring

theorem decodeChunksN_flatten_pack (f : Fmt) (vals : List Int) (tail : List Nat)
    (h : ∀ v ∈ vals, fits f v) :
    decodeChunksN f vals.length ((vals.map (packElem f)).flatten ++ tail) = vals := by
  induction vals with
  | nil => simp [decodeChunksN]
  | cons v vs ih =>
    simp only [List.map_cons, List.flatten_cons, List.length_cons, List.append_assoc,
      decodeChunksN]
    rw [List.take_left' (length_packElem f v), List.drop_left' (length_packElem f v),
      unpackElem_packElem f v (h v (List.mem_cons_self v vs)),
      ih fun x hx => h x (List.mem_cons_of_mem v hx)]

/-- Decoding a frame with a valid checksum trailer and an aligned payload
succeeds and clears the cache slot. -/
theorem get_latest_received_add_checksum (f : Fmt) (payload : List Nat)
    (hmod : payload.length % f.size = 0) :
    get_latest_received f (some (add_checksum payload)) =
      (some (decodeChunksN f (payload.length / f.size) payload), none) := by
  simp only [add_checksum, get_latest_received, checksum_format_size, List.length_append,
    List.length_cons, List.length_nil, Nat.add_sub_cancel]
  rw [List.take_left' rfl, List.drop_left' rfl]
  simp [leVal, hmod]

/-- Flip bit `b` (0 = least significant) of byte `j` of a byte string. -/
def flip_bit (bs : List Nat) (j b : Nat) : List Nat :=
  bs.set j (bs.getD j 0 ^^^ 2 ^ b)

theorem xor_ne_self (a m : Nat) (hm : m ≠ 0) : a ^^^ m ≠ a := by
  intro h
  apply hm
  calc m = a ^^^ (a ^^^ m) := by rw [← Nat.xor_assoc, Nat.xor_self, Nat.zero_xor]
  _ = a ^^^ a := by rw [h]
  _ = 0 := Nat.xor_self a

/-- Decoding a frame whose trailer byte disagrees with the payload checksum
fails and leaves the slot untouched. -/
theorem get_latest_received_mismatch (f : Fmt) (payload : List Nat) (c : Nat)
    (hne : c ≠ compute_checksum payload) :
    get_latest_received f (some (payload ++ [c])) = (none, some (payload ++ [c])) := by
  simp only [get_latest_received, checksum_format_size, List.length_append,
    List.length_cons, List.length_nil, Nat.add_sub_cancel]
  rw [List.take_left' rfl, List.drop_left' rfl]
  simp [leVal, hne]

/-- **C2.** For every array of the negotiated outbound length whose values fit
the negotiated encoding, `send_data`'s framing (pack the values, append the
XOR checksum byte) is inverted exactly by the decode path of
`get_latest_received` (split the trailer byte, verify the checksum, unpack):
the original array is reproduced, at the bit-pattern level of the encoding. -/
theorem encode_decode_roundtrip (f : Fmt) (vals : List Int) (n : Nat)
    (hlen : vals.length = n) (hfit : ∀ v ∈ vals, fits f v) :
    ∃ frame, send_data f vals = some frame ∧ frame.length = f.size * n + 1 ∧
      get_latest_received f (some frame) = (some vals, none) := by
  have hall : (vals.all fun v => decide (fits f v)) = true := by
    rw [List.all_eq_true]
    intro v hv
    exact decide_eq_true (hfit v hv)
  refine ⟨add_checksum ((vals.map (packElem f)).flatten), ?_, ?_, ?_⟩
  · simp [send_data, hall]
  · simp only [add_checksum, List.length_append, List.length_cons, List.length_nil]
    rw [length_flatten_pack, hlen]
  · have hmod : ((vals.map (packElem f)).flatten).length % f.size = 0 := by
      rw [length_flatten_pack]
      exact Nat.mul_mod_right _ _
    rw [get_latest_received_add_checksum f _ hmod, length_flatten_pack,
      Nat.mul_div_cancel_left _ f.size_pos]
    have h := decodeChunksN_flatten_pack f vals [] hfit
    rw [List.append_nil] at h
    rw [h]

/-- Witness for C2 at a concrete input. -/
theorem encode_decode_roundtrip_witness :
    ([(3 : Int), -7, 100].length = 3 ∧ ∀ v ∈ [(3 : Int), -7, 100], fits Fmt.intF v) ∧
    ∃ frame, send_data Fmt.intF [3, -7, 100] = some frame ∧
      frame.length = Fmt.intF.size * 3 + 1 ∧
      get_latest_received Fmt.intF (some frame) = (some [3, -7, 100], none) :=
  ⟨⟨by decide, by decide⟩,
    encode_decode_roundtrip Fmt.intF [3, -7, 100] 3 (by decide) (by decide)⟩

/-- **C3.** In a correctly encoded frame (payload plus matching XOR-checksum
trailer), flipping any single bit — in a payload byte or in the checksum
byte — makes the recomputed checksum mismatch the trailer, so
`get_latest_received` reports no value: the frame is dropped whole. -/
theorem single_bit_flip_detected (f : Fmt) (payload : List Nat) (j b : Nat)
    (hj : j < (add_checksum payload).length) (hb : b < 8) :
    (get_latest_received f (some (flip_bit (add_checksum payload) j b))).1 = none := by
  have hpow : (2 : Nat) ^ b ≠ 0 := (Nat.two_pow_pos b).ne'
  have hjlen : j < payload.length + 1 := by simpa [add_checksum] using hj
  rcases Nat.lt_succ_iff_lt_or_eq.mp hjlen with hlt | heq
  · -- a payload byte is corrupted: the recomputed checksum moves by 2^b
    have hset : flip_bit (add_checksum payload) j b =
        payload.set j (payload.getD j 0 ^^^ 2 ^ b) ++ [compute_checksum payload] := by
      unfold flip_bit add_checksum
      rw [List.getD_append _ _ _ _ hlt, List.set_append_left _ _ hlt]
    rw [hset, get_latest_received_mismatch]
    rw [compute_checksum_set payload j _ hlt]
    exact (xor_ne_self _ _ hpow).symm
  · -- the checksum byte itself is corrupted
    have hset : flip_bit (add_checksum payload) j b =
        payload ++ [compute_checksum payload ^^^ 2 ^ b] := by
      unfold flip_bit add_checksum
      subst heq
      rw [List.getD_append_right _ _ _ _ (le_refl _), List.set_append_right _ _ (le_refl _)]
      simp
    rw [hset, get_latest_received_mismatch]
    exact xor_ne_self _ _ hpow

/-- Witness for C3 at a concrete input. -/
theorem single_bit_flip_detected_witness :
    (0 < (add_checksum [1, 2]).length ∧ 0 < 8) ∧
    (get_latest_received Fmt.intF (some (flip_bit (add_checksum [1, 2]) 0 0))).1 = none :=
  ⟨⟨by decide, by decide⟩,
    single_bit_flip_detected Fmt.intF [1, 2] 0 0 (by decide) (by decide)⟩

/-- **C4.** The latest-value cache: a read of an empty slot yields no value;
the receiver's cache write overwrites the slot unconditionally; the first
read of a freshly arrived valid frame yields its decoded array and clears
the slot, so an immediate second read yields no value — each frame is
delivered at most once. -/
theorem latest_value_cache_once (f : Fmt) (slot0 : Option (List Nat)) (vals : List Int)
    (frame : List Nat) (n : Nat) (hlen : vals.length = n) (hfit : ∀ v ∈ vals, fits f v)
    (hframe : send_data f vals = some frame) :
    (get_latest_received f none).1 = none ∧
    continuous_data_receiver_step (f.size * n + 1) frame slot0 = some frame ∧
    get_latest_received f (some frame) = (some vals, none) ∧
    (get_latest_received f (get_latest_received f (some frame)).2).1 = none := by
  obtain ⟨frame', hsend, hflen, hdec⟩ := encode_decode_roundtrip f vals n hlen hfit
  have hfr : frame = frame' := by
    rw [hsend] at hframe
    exact (Option.some_inj.mp hframe).symm
  subst hfr
  refine ⟨rfl, ?_, hdec, ?_⟩
  · have hne : frame.isEmpty = false := by
      cases frame with
      | nil => simp at hflen
      | cons a l => rfl
    simp [continuous_data_receiver_step, receive_data, hne, hflen]
  · rw [hdec]
    simp [get_latest_received]

/-- Witness for C4 at a concrete input. -/
theorem latest_value_cache_once_witness :
    ([(4 : Int), 5].length = 2 ∧ (∀ v ∈ [(4 : Int), 5], fits Fmt.intF v) ∧
      send_data Fmt.intF [4, 5] = some [4, 5, 1]) ∧
    (get_latest_received Fmt.intF none).1 = none ∧
    continuous_data_receiver_step (Fmt.intF.size * 2 + 1) [4, 5, 1] (some [9, 9]) =
      some [4, 5, 1] ∧
    get_latest_received Fmt.intF (some [4, 5, 1]) = (some [4, 5], none) ∧
    (get_latest_received Fmt.intF (get_latest_received Fmt.intF (some [4, 5, 1])).2).1 = none :=
  ⟨⟨by decide, by decide, by decide⟩,
    latest_value_cache_once Fmt.intF (some [9, 9]) [4, 5] [4, 5, 1] 2
      (by decide) (by decide) (by decide)⟩

/-- **C5.** `__receive_data` drops every received byte sequence whose length
differs from the negotiated inbound frame size (`recv_bytes`): the receiver
iteration then delivers nothing to the cache; only sequences of exactly
`recv_bytes` bytes pass through to decoding. -/
theorem receive_length_filter (recv_bytes : Nat) (full_data : List Nat)
    (slot : Option (List Nat)) :
    (full_data.length ≠ recv_bytes →
      receive_data recv_bytes full_data = none ∧
      continuous_data_receiver_step recv_bytes full_data slot = slot) ∧
    (∀ d, receive_data recv_bytes full_data = some d →
      d = full_data ∧ full_data.length = recv_bytes) := by
  constructor
  · intro hne
    have h : (full_data.length != recv_bytes) = true := by
      simpa using hne
    constructor
    · simp [receive_data, h]
    · simp [continuous_data_receiver_step, receive_data, h]
  · intro d hd
    simp only [receive_data] at hd
    by_cases hc : (full_data.isEmpty || full_data.length != recv_bytes) = true
    · rw [if_pos hc] at hd
      exact absurd hd (by simp)
    · rw [if_neg hc] at hd
      have hcf : (full_data.isEmpty || full_data.length != recv_bytes) = false := by
        simpa using hc
      rcases Bool.or_eq_false_iff.mp hcf with ⟨-, h2⟩
      refine ⟨(Option.some_inj.mp hd).symm, ?_⟩
      simpa using h2

/-- Witness for C5 at a concrete input. -/
theorem receive_length_filter_witness :
    ([(1 : Nat), 2].length ≠ 9) ∧
    receive_data 9 [1, 2] = none ∧
    continuous_data_receiver_step 9 [1, 2] (some [7]) = some [7] :=
  ⟨by decide,
    ((receive_length_filter 9 [1, 2] (some [7])).1 (by decide)).1,
    ((receive_length_filter 9 [1, 2] (some [7])).1 (by decide)).2⟩

/-- **C10.** When decoding the cached value fails (checksum mismatch,
misaligned payload length, or an unpack error), `get_latest_received`
returns no value and leaves the slot exactly as it was — the invalid frame
is not cleared; the slot is cleared only on a fully successful decode. -/
theorem decode_failure_keeps_slot (f : Fmt) (slot : Option (List Nat)) :
    ((get_latest_received f slot).1 = none → (get_latest_received f slot).2 = slot) ∧
    (∀ v, (get_latest_received f slot).1 = some v → (get_latest_received f slot).2 = none) := by
  cases slot with
  | none => simp [get_latest_received]
  | some full_data =>
    simp only [get_latest_received]
    split_ifs <;> simp

/-- Witness for C10 at a concrete input (a one-byte frame whose checksum
byte cannot match the empty payload's checksum 0). -/
theorem decode_failure_keeps_slot_witness :
    (get_latest_received Fmt.intF (some [5])).1 = none ∧
    (get_latest_received Fmt.intF (some [5])).2 = some [5] :=
  ⟨by decide, (decode_failure_keeps_slot Fmt.intF (some [5])).1 (by decide)⟩

/-! Branch-unfolding lemmas for `handshake`. -/

theorem handshake_server_mismatch (lid lin lout : Int) (ldt : String) (nargs : Nat)
    (kwargs : List Int) (peer : HSPeer)
    (hne : ¬(peer.msg3 = lout ∧ peer.msg2 = lin)) :
    handshake (some "server") lid lin lout ldt nargs kwargs peer = .failFalse := by
  simp only [handshake]
  rw [if_pos trivial, if_pos hne]

theorem handshake_server_mevea (lid lin lout : Int) (ldt : String) (nargs : Nat)
    (kwargs : List Int) (peer : HSPeer)
    (hm : peer.msg3 = lout ∧ peer.msg2 = lin)
    (hmev : id_numbers peer.msg1 = "Mevea") :
    handshake (some "server") lid lin lout ldt nargs kwargs peer =
      hs_finish peer.msg1 peer.msg3 peer.msg2 lout .doubleF .doubleF
        [lid, lin, lout] none := by
  simp only [handshake]
  rw [if_pos trivial, if_neg (not_not_intro hm), if_pos hmev]

theorem handshake_server_other (lid lin lout : Int) (ldt : String) (nargs : Nat)
    (kwargs : List Int) (peer : HSPeer)
    (hm : peer.msg3 = lout ∧ peer.msg2 = lin)
    (hmev : ¬id_numbers peer.msg1 = "Mevea") :
    handshake (some "server") lid lin lout ldt nargs kwargs peer =
      hs_finish peer.msg1 peer.msg3 peer.msg2 lout
        (if datatype_encoding_get ldt = 0 then .intF else .doubleF)
        (if peer.datatype_code = 0 then .intF else .doubleF)
        ([lid, lin, lout, datatype_encoding_get ldt] ++ prepare_extra_args kwargs nargs)
        (some (receive_extra_args peer.extra_args nargs)) := by
  simp only [handshake]
  rw [if_pos trivial, if_neg (not_not_intro hm), if_neg hmev]

theorem handshake_client_eq (lid lin lout : Int) (ldt : String) (nargs : Nat)
    (kwargs : List Int) (peer : HSPeer) :
    handshake (some "client") lid lin lout ldt nargs kwargs peer =
      if id_numbers peer.msg1 = "Mevea" then
        hs_finish peer.msg1 peer.msg2 peer.msg3 lout .doubleF .doubleF
          ([lid, lout, lin, datatype_encoding_get ldt] ++ prepare_extra_args kwargs nargs)
          none
      else
        hs_finish peer.msg1 peer.msg2 peer.msg3 lout
          (if datatype_encoding_get ldt = 0 then .intF else .doubleF)
          (if peer.datatype_code = 0 then .intF else .doubleF)
          ([lid, lout, lin, datatype_encoding_get ldt] ++ prepare_extra_args kwargs nargs)
          (some (receive_extra_args peer.extra_args nargs)) := by
  simp only [handshake]
  rw [if_neg (by decide), if_pos trivial]

/-- **C1 (counterexample).** A client-role handshake against a peer whose
declared counts do not cross-match the local counts still succeeds: the
client path of `handshake` performs no count validation, contradicting the
claim that every handshake run fails on any other count combination. -/
theorem handshake_client_skips_count_validation :
    (handshake (some "client") 0 1 2 "double" 3 [] ⟨0, 5, 7, 1, []⟩).isOk = true ∧
    ¬((5 : Int) = 2 ∧ (7 : Int) = 1) := by decide

/-- **C1 (amended).** Only the server role validates counts: a server-role
handshake succeeds exactly when the peer's declared input count equals the
local output count and the peer's declared output count equals the local
input count, and any other combination returns the negative result `False`
without negotiating the session; a client-role handshake never validates
counts and always completes. -/
theorem handshake_count_validation (lid lin lout : Int) (ldt : String) (nargs : Nat)
    (kwargs : List Int) (peer : HSPeer) :
    ((handshake (some "server") lid lin lout ldt nargs kwargs peer).isOk = true ↔
      (peer.msg3 = lout ∧ peer.msg2 = lin)) ∧
    (¬(peer.msg3 = lout ∧ peer.msg2 = lin) →
      handshake (some "server") lid lin lout ldt nargs kwargs peer = .failFalse) ∧
    (handshake (some "client") lid lin lout ldt nargs kwargs peer).isOk = true := by
  refine ⟨?_, handshake_server_mismatch lid lin lout ldt nargs kwargs peer, ?_⟩
  · by_cases hm : peer.msg3 = lout ∧ peer.msg2 = lin
    · by_cases hmev : id_numbers peer.msg1 = "Mevea"
      · rw [handshake_server_mevea lid lin lout ldt nargs kwargs peer hm hmev]
        simp [hs_finish, HSResult.isOk, hm]
      · rw [handshake_server_other lid lin lout ldt nargs kwargs peer hm hmev]
        simp [hs_finish, HSResult.isOk, hm]
    · rw [handshake_server_mismatch lid lin lout ldt nargs kwargs peer hm]
      simp [HSResult.isOk, hm]
  · rw [handshake_client_eq]
    split_ifs <;> simp [hs_finish, HSResult.isOk]

/-- Witness for C1 (amended), at the spec's §8 scenario: a server with
(id=0, inputs=20, outputs=0) accepts a peer declaring (outputs=20, inputs=0)
and rejects one declaring outputs=5 with `False`; a client accepts either. -/
theorem handshake_count_validation_witness :
    (handshake (some "server") 0 20 0 "double" 3 [] ⟨1, 20, 0, 1, []⟩).isOk = true ∧
    ¬(((0 : Int) = 0 ∧ (5 : Int) = 20)) ∧
    handshake (some "server") 0 20 0 "double" 3 [] ⟨1, 5, 0, 1, []⟩ = .failFalse ∧
    (handshake (some "client") 0 20 0 "double" 3 [] ⟨1, 5, 0, 1, []⟩).isOk = true :=
  ⟨(handshake_count_validation 0 20 0 "double" 3 [] ⟨1, 20, 0, 1, []⟩).1.mpr
      ⟨by decide, by decide⟩,
    by decide,
    (handshake_count_validation 0 20 0 "double" 3 [] ⟨1, 5, 0, 1, []⟩).2.1 (by decide),
    (handshake_count_validation 0 20 0 "double" 3 [] ⟨1, 5, 0, 1, []⟩).2.2⟩

/-- **C6.** Whenever the peer's identity number maps to "Mevea" (and, for
the server role, the count validation that precedes the check passes), the
encoding-selector / extra-argument exchange is skipped entirely — the result
does not depend on any selector or extra arguments the peer might send, no
extra arguments are reported, and the server's response carries only the
three count integers — and both output encodings are forced to the 8-byte
double format regardless of the encoding the local caller requested. -/
theorem handshake_mevea_forces_double (role : String) (lid lin lout : Int)
    (ldt : String) (nargs : Nat) (kwargs : List Int) (p1 p2 p3 dc dc' : Int)
    (ea ea' : List Int)
    (hrole : role = "server" ∨ role = "client")
    (hmevea : id_numbers p1 = "Mevea")
    (hcounts : role = "server" → p3 = lout ∧ p2 = lin) :
    handshake (some role) lid lin lout ldt nargs kwargs ⟨p1, p2, p3, dc, ea⟩ =
      handshake (some role) lid lin lout ldt nargs kwargs ⟨p1, p2, p3, dc', ea'⟩ ∧
    ∃ s, handshake (some role) lid lin lout ldt nargs kwargs ⟨p1, p2, p3, dc, ea⟩ = .ok s ∧
      s.local_output_datatype = .doubleF ∧ s.connected_output_datatype = .doubleF ∧
      s.recvd_extra_args = none ∧
      (role = "server" → s.response_values = [lid, lin, lout]) := by
  rcases hrole with h | h <;> subst h
  · have hc := hcounts rfl
    rw [handshake_server_mevea lid lin lout ldt nargs kwargs ⟨p1, p2, p3, dc, ea⟩ hc hmevea,
      handshake_server_mevea lid lin lout ldt nargs kwargs ⟨p1, p2, p3, dc', ea'⟩ hc hmevea]
    exact ⟨rfl, _, rfl, rfl, rfl, rfl, fun _ => rfl⟩
  · rw [handshake_client_eq lid lin lout ldt nargs kwargs ⟨p1, p2, p3, dc, ea⟩,
      handshake_client_eq lid lin lout ldt nargs kwargs ⟨p1, p2, p3, dc', ea'⟩,
      if_pos hmevea, if_pos hmevea]
    refine ⟨rfl, _, rfl, rfl, rfl, rfl, fun h => ?_⟩
    exact absurd h (by decide)

/-- Witness for C6 at a concrete input: server role, Mevea peer (id 1),
matching counts, an `'int'` local request, and two different peer
selector/extra-argument streams. -/
theorem handshake_mevea_forces_double_witness :
    (id_numbers 1 = "Mevea") ∧
    handshake (some "server") 0 2 3 "int" 3 [9] ⟨1, 2, 3, 0, [4]⟩ =
      handshake (some "server") 0 2 3 "int" 3 [9] ⟨1, 2, 3, 1, [7, 8]⟩ ∧
    ∃ s, handshake (some "server") 0 2 3 "int" 3 [9] ⟨1, 2, 3, 0, [4]⟩ = .ok s ∧
      s.local_output_datatype = .doubleF ∧ s.connected_output_datatype = .doubleF ∧
      s.recvd_extra_args = none ∧
      ("server" = "server" → s.response_values = [0, 2, 3]) :=
  ⟨by decide,
    (handshake_mevea_forces_double "server" 0 2 3 "int" 3 [9] 1 2 3 0 1 [4] [7, 8]
      (Or.inl rfl) (by decide) (fun _ => ⟨rfl, rfl⟩)).1,
    (handshake_mevea_forces_double "server" 0 2 3 "int" 3 [9] 1 2 3 0 1 [4] [7, 8]
      (Or.inl rfl) (by decide) (fun _ => ⟨rfl, rfl⟩)).2⟩

/-! ## Buffer/saver lemmas -/

theorem drain_pack_eq_map (buf : List (Nat × List Nat)) :
    drain_pack buf = buf.map pack_record := by
  induction buf with
  | nil => rfl
  | cons e rest ih => simp [drain_pack, ih]

theorem length_flatten_leBytes (l : List Nat) :
    ((l.map (leBytes 8)).flatten).length = 8 * l.length := by
  induction l with
  | nil => simp
  | cons x xs ih =>
    simp only [List.map_cons, List.flatten_cons, List.length_append, ih,
      length_leBytes, List.length_cons]
    ring

/-- **C7.** When the record buffer holds at least `buffer_size` entries and a
flush runs, `__save_buffer` drains the whole queue in FIFO arrival order,
packs exactly one fixed-width record (an 8-byte timestamp plus N 8-byte
values) per drained entry, appends them to the log in one batched write, and
leaves the buffer empty. -/
theorem record_buffer_flush (data_buffer : List (Nat × List Nat)) (log : List Nat)
    (N : Nat) (hthr : buffer_size ≤ data_buffer.length)
    (hN : ∀ e ∈ data_buffer, e.2.length = N) :
    (save_buffer data_buffer log).1 = [] ∧
    (save_buffer data_buffer log).2 = log ++ (drain_pack data_buffer).flatten ∧
    drain_pack data_buffer = data_buffer.map pack_record ∧
    (drain_pack data_buffer).length = data_buffer.length ∧
    (∀ r ∈ drain_pack data_buffer, r.length = 8 * (1 + N)) := by
  refine ⟨rfl, rfl, drain_pack_eq_map _, ?_, ?_⟩
  · rw [drain_pack_eq_map]
    simp
  · intro r hr
    rw [drain_pack_eq_map] at hr
    obtain ⟨e, he, rfl⟩ := List.mem_map.mp hr
    simp only [pack_record, List.length_append, length_leBytes, length_flatten_leBytes,
      hN e he]
    ring

/-- Witness for C7 at a concrete input: 100 single-value entries. -/
theorem record_buffer_flush_witness :
    (buffer_size ≤ (List.replicate 100 ((0 : Nat), [(0 : Nat)])).length ∧
      ∀ e ∈ List.replicate 100 ((0 : Nat), [(0 : Nat)]), e.2.length = 1) ∧
    (save_buffer (List.replicate 100 ((0 : Nat), [(0 : Nat)])) []).1 = [] ∧
    (save_buffer (List.replicate 100 ((0 : Nat), [(0 : Nat)])) []).2 =
      [] ++ (drain_pack (List.replicate 100 ((0 : Nat), [(0 : Nat)]))).flatten ∧
    drain_pack (List.replicate 100 ((0 : Nat), [(0 : Nat)])) =
      (List.replicate 100 ((0 : Nat), [(0 : Nat)])).map pack_record ∧
    (drain_pack (List.replicate 100 ((0 : Nat), [(0 : Nat)]))).length =
      (List.replicate 100 ((0 : Nat), [(0 : Nat)])).length ∧
    (∀ r ∈ drain_pack (List.replicate 100 ((0 : Nat), [(0 : Nat)])),
      r.length = 8 * (1 + 1)) :=
  ⟨⟨by decide, by decide⟩,
    record_buffer_flush (List.replicate 100 ((0 : Nat), [(0 : Nat)])) [] 1
      (by decide) (by decide)⟩

/-- **C8.** `tcp_to_udp` rebinds the server's previously used local address
(or, for a client, retains the previously known peer address), flips the
transport flag to datagram, leaves the negotiated frame sizes untouched, and
afterwards a server records each received datagram's source address as the
current peer address. -/
theorem tcp_to_udp_effects (st : ConnState) :
    (st.socket_type = some "server" →
      (tcp_to_udp st).1.local_socket = some { is_stream := false, bound := st.local_addr } ∧
      (tcp_to_udp st).1.network_protocol = some "udp" ∧
      (tcp_to_udp st).1.send_bytes = st.send_bytes ∧
      (tcp_to_udp st).1.recv_bytes = st.recv_bytes ∧
      (tcp_to_udp st).2 = true ∧
      ∀ rb data addr,
        (receive_data_udp (tcp_to_udp st).1 rb data addr).1.connected_addr = some addr) ∧
    (st.socket_type = some "client" →
      (tcp_to_udp st).1.connected_addr = st.connected_addr ∧
      (tcp_to_udp st).1.local_socket = some { is_stream := false, bound := none } ∧
      (tcp_to_udp st).1.network_protocol = some "udp" ∧
      (tcp_to_udp st).1.send_bytes = st.send_bytes ∧
      (tcp_to_udp st).1.recv_bytes = st.recv_bytes ∧
      (tcp_to_udp st).2 = true) := by
  constructor
  · intro h
    simp [tcp_to_udp, receive_data_udp, h]
  · intro h
    simp [tcp_to_udp, h]

/-- Witness for C8 at a concrete state: a server bound to port 5111. -/
theorem tcp_to_udp_effects_witness :
    ({ initState with
        socket_type := some "server"
        network_protocol := some "tcp"
        local_addr := some ("0.0.0.0", 5111)
        connected_addr := some ("10.0.0.1", 40000)
        local_socket := some { is_stream := true, bound := some ("0.0.0.0", 5111) }
        send_bytes := some 161
        recv_bytes := some 161 : ConnState }.socket_type = some "server") ∧
    (tcp_to_udp { initState with
        socket_type := some "server"
        network_protocol := some "tcp"
        local_addr := some ("0.0.0.0", 5111)
        connected_addr := some ("10.0.0.1", 40000)
        local_socket := some { is_stream := true, bound := some ("0.0.0.0", 5111) }
        send_bytes := some 161
        recv_bytes := some 161 }).1.local_socket =
      some { is_stream := false, bound := some ("0.0.0.0", 5111) } ∧
    (receive_data_udp (tcp_to_udp { initState with
        socket_type := some "server"
        network_protocol := some "tcp"
        local_addr := some ("0.0.0.0", 5111)
        connected_addr := some ("10.0.0.1", 40000)
        local_socket := some { is_stream := true, bound := some ("0.0.0.0", 5111) }
        send_bytes := some 161
        recv_bytes := some 161 }).1 3 [1, 2, 3]
      ("192.168.1.7", 50123)).1.connected_addr = some ("192.168.1.7", 50123) := by
  have h := (tcp_to_udp_effects { initState with
    socket_type := some "server"
    network_protocol := some "tcp"
    local_addr := some ("0.0.0.0", 5111)
    connected_addr := some ("10.0.0.1", 40000)
    local_socket := some { is_stream := true, bound := some ("0.0.0.0", 5111) }
    send_bytes := some 161
    recv_bytes := some 161 }).1 rfl
  exact ⟨rfl, h.1, h.2.2.2.2.2 3 [1, 2, 3] ("192.168.1.7", 50123)⟩

/-- **C9 (counterexample).** With a socket already present for the session,
`setup_socket` with a valid role still returns `True` (the private setup
helper only prints "socket already made!" and returns), and no new
connection is established — the claim that setup fails whenever a socket
already exists is false on the code. -/
theorem setup_socket_existing_socket_still_true :
    (setup_socket { initState with local_socket := some { is_stream := true, bound := none } }
      "127.0.0.1" 5111 0 20 0 "client" ("peer", 0)).2 = true ∧
    (setup_socket { initState with local_socket := some { is_stream := true, bound := none } }
      "127.0.0.1" 5111 0 20 0 "client" ("peer", 0)).1.connected_socket = none ∧
    (setup_socket { initState with local_socket := some { is_stream := true, bound := none } }
      "127.0.0.1" 5111 0 20 0 "client" ("peer", 0)).1.network_protocol = none := by
  decide

/-- **C9 (amended).** `setup_socket` returns the failure result `False`
exactly when the role argument is neither `"server"` nor `"client"`.  When
the role is valid and no socket exists yet, it establishes exactly one
stream connection; when a socket already exists it changes no socket state
(only re-stores identity and counts) yet still returns `True`. -/
theorem setup_socket_validation (st : ConnState) (addr : String) (port : Nat)
    (idn ins outs : Int) (stype : String) (acc : String × Nat) :
    (stype ≠ "server" ∧ stype ≠ "client" →
      (setup_socket st addr port idn ins outs stype acc).2 = false) ∧
    (stype = "server" ∨ stype = "client" →
      (setup_socket st addr port idn ins outs stype acc).2 = true) ∧
    (st.local_socket ≠ none →
      (setup_socket st addr port idn ins outs stype acc).1.local_socket = st.local_socket ∧
      (setup_socket st addr port idn ins outs stype acc).1.connected_socket =
        st.connected_socket ∧
      (setup_socket st addr port idn ins outs stype acc).1.network_protocol =
        st.network_protocol) ∧
    (st.local_socket = none → stype = "client" →
      (setup_socket st addr port idn ins outs stype acc).1.local_socket =
        some { is_stream := true, bound := none } ∧
      (setup_socket st addr port idn ins outs stype acc).1.connected_socket =
        some { is_stream := true, bound := none } ∧
      (setup_socket st addr port idn ins outs stype acc).1.connected_addr =
        some (addr, port) ∧
      (setup_socket st addr port idn ins outs stype acc).1.network_protocol = some "tcp") ∧
    (st.local_socket = none → stype = "server" →
      (setup_socket st addr port idn ins outs stype acc).1.local_socket =
        some { is_stream := true, bound := some (addr, port) } ∧
      (setup_socket st addr port idn ins outs stype acc).1.connected_socket =
        some { is_stream := true, bound := none } ∧
      (setup_socket st addr port idn ins outs stype acc).1.connected_addr = some acc ∧
      (setup_socket st addr port idn ins outs stype acc).1.network_protocol = some "tcp") := by
  refine ⟨?_, ?_, ?_, ?_, ?_⟩
  · rintro ⟨h1, h2⟩
    simp [setup_socket, h1, h2]
  · rintro (h | h) <;> subst h <;> simp [setup_socket]
  · intro h
    simp only [setup_socket]
    split_ifs with h1 h2
    · subst h1
      simp [setup_socket_client, h]
    · subst h2
      simp [setup_socket_server, h]
    · exact ⟨rfl, rfl, rfl⟩
  · intro h hc
    subst hc
    simp [setup_socket, setup_socket_client, h]
  · intro h hc
    subst hc
    simp [setup_socket, setup_socket_server, h]

/-- Witness for C9 (amended) at concrete inputs: an invalid role fails, a
fresh client setup succeeds and connects. -/
theorem setup_socket_validation_witness :
    (("tcp" ≠ "server" ∧ "tcp" ≠ "client") ∧
      (setup_socket initState "127.0.0.1" 5111 0 20 0 "tcp" ("peer", 0)).2 = false) ∧
    (initState.local_socket = none ∧
      (setup_socket initState "127.0.0.1" 5111 0 20 0 "client" ("peer", 0)).1.connected_addr =
        some ("127.0.0.1", 5111) ∧
      (setup_socket initState "127.0.0.1" 5111 0 20 0 "client" ("peer", 0)).2 = true) :=
  ⟨⟨⟨by decide, by decide⟩,
      (setup_socket_validation initState "127.0.0.1" 5111 0 20 0 "tcp" ("peer", 0)).1
        ⟨by decide, by decide⟩⟩,
    ⟨rfl,
      ((setup_socket_validation initState "127.0.0.1" 5111 0 20 0 "client" ("peer", 0)).2.2.2.1
        rfl rfl).2.2.1,
      (setup_socket_validation initState "127.0.0.1" 5111 0 20 0 "client" ("peer", 0)).2.1
        (Or.inr rfl)⟩⟩

end MasiSocket
